import Mathlib

/-!
Shallow embedding of `src/bias-audit-demo/src/components/BiasAuditDashboard.tsx`.

Numeric values are modelled as rationals (all literals in the source are
exact decimals). `Math.sin` and `Math.random` are ambient effects of the
JavaScript runtime, so they enter the embedding as explicit parameters:
`s : ℚ → ℚ` stands for the sine function and a draw function stands for the
stream of `Math.random()` results (one draw per channel per index).
`Date.now()` / `dayjs()` enter as an explicit clock value (milliseconds,
an integer).
-/

namespace BiasAudit

/-- The `status` field of a `BiasMetric` ('excellent' | 'moderate' | 'high-risk'). -/
inductive MetricStatus where
  | excellent
  | moderate
  | highRisk
deriving DecidableEq, Repr

/-- The `trend` field of a `BiasMetric` ('uptrend' | 'stable' | 'dropping'). -/
inductive Trend where
  | uptrend
  | stable
  | dropping
deriving DecidableEq, Repr

/-- The `severity` field of an `AlertItem` ('low' | 'medium' | 'high'). -/
inductive Severity where
  | low
  | medium
  | high
deriving DecidableEq, Repr

/-- The `BiasMetric` interface of the source. -/
structure BiasMetric where
  name : String
  value : ℚ
  pValue : ℚ
  status : MetricStatus
  interpretation : String
  trend : Trend
deriving DecidableEq, Repr

/-- The `AlertItem` interface of the source; `timestamp` is milliseconds. -/
structure AlertItem where
  id : String
  timestamp : ℤ
  severity : Severity
  title : String
  message : String
  metric : String
deriving DecidableEq, Repr

/-- Gender counts of `DemographicData`. -/
structure GenderCounts where
  male : ℕ
  female : ℕ
  nonBinary : ℕ
deriving DecidableEq, Repr

/-- Age-band counts of `DemographicData`. -/
structure AgeCounts where
  a18to25 : ℕ
  a26to35 : ℕ
  a36to45 : ℕ
  a46plus : ℕ
deriving DecidableEq, Repr

/-- Ethnicity counts of `DemographicData`. -/
structure EthnicityCounts where
  white : ℕ
  black : ℕ
  hispanic : ℕ
  asian : ℕ
  other : ℕ
deriving DecidableEq, Repr

/-- The `DemographicData` interface of the source. -/
structure DemographicData where
  gender : GenderCounts
  age : AgeCounts
  ethnicity : EthnicityCounts
deriving DecidableEq, Repr

/-- One element of `timeSeriesData`: timestamp plus the five scalar channels. -/
structure TSPoint where
  date : ℤ
  overall_bias : ℚ
  gender_bias : ℚ
  age_bias : ℚ
  ethnic_bias : ℚ
  socioeconomic_bias : ℚ
deriving DecidableEq, Repr

/-- The `biasMetrics` array of `generateDummyData`. -/
def biasMetrics : List BiasMetric :=
  [ { name := "Gender Bias"
      value := 0.087
      pValue := 0.023
      status := .moderate
      interpretation := "Moderate gender bias detected in course completion rates"
      trend := .uptrend }
  , { name := "Age Discrimination"
      value := 0.156
      pValue := 0.001
      status := .highRisk
      interpretation := "Significant age-based disparities in grade distributions"
      trend := .dropping }
  , { name := "Ethnic Fairness"
      value := 0.043
      pValue := 0.124
      status := .excellent
      interpretation := "No significant ethnic bias detected"
      trend := .stable }
  , { name := "Socioeconomic Impact"
      value := 0.112
      pValue := 0.008
      status := .highRisk
      interpretation := "Concerning socioeconomic disparities in learning outcomes"
      trend := .dropping } ]

/-- The `alerts` array of `generateDummyData`; `now` is `Date.now()`. -/
def alerts (now : ℤ) : List AlertItem :=
  [ { id := "1"
      timestamp := now - 1000 * 60 * 15
      severity := .high
      title := "Age Bias Threshold Exceeded"
      message := "Completion rate gap between age groups exceeded 15%"
      metric := "age_discrimination" }
  , { id := "2"
      timestamp := now - 1000 * 60 * 45
      severity := .medium
      title := "Gender Performance Gap"
      message := "Statistical significance detected in grade distributions"
      metric := "gender_bias" }
  , { id := "3"
      timestamp := now - 1000 * 60 * 120
      severity := .low
      title := "Sample Size Warning"
      message := "Insufficient data for reliable analysis in Computer Science course"
      metric := "sample_size" } ]

/-- The `demographicData` object of `generateDummyData`. -/
def demographicData : DemographicData :=
  { gender := { male := 2847, female := 3156, nonBinary := 97 }
    age := { a18to25 := 2890, a26to35 := 2045, a36to45 := 998, a46plus := 167 }
    ethnicity := { white := 2456, black := 1234, hispanic := 1456, asian := 789, other := 165 } }

/-- `overall_bias` at index `i`: `0.08 + Math.sin(i * 0.2) * 0.02 + Math.random() * 0.01`. -/
def overallChannel (s : ℚ → ℚ) (r : ℚ) (i : ℕ) : ℚ :=
  0.08 + s (i * 0.2) * 0.02 + r * 0.01

/-- `gender_bias` at index `i`: `0.087 + Math.sin(i * 0.15) * 0.015 + Math.random() * 0.008`. -/
def genderChannel (s : ℚ → ℚ) (r : ℚ) (i : ℕ) : ℚ :=
  0.087 + s (i * 0.15) * 0.015 + r * 0.008

/-- `age_bias` at index `i`: `0.156 - i * 0.002 + Math.random() * 0.01` (no sine term). -/
def ageChannel (_s : ℚ → ℚ) (r : ℚ) (i : ℕ) : ℚ :=
  0.156 - i * 0.002 + r * 0.01

/-- `ethnic_bias` at index `i`: `0.043 + Math.random() * 0.005` (constant base, no sine term). -/
def ethnicChannel (_s : ℚ → ℚ) (r : ℚ) (_i : ℕ) : ℚ :=
  0.043 + r * 0.005

/-- `socioeconomic_bias` at index `i`: `0.112 + Math.sin(i * 0.1) * 0.02 + Math.random() * 0.008`. -/
def socioChannel (s : ℚ → ℚ) (r : ℚ) (i : ℕ) : ℚ :=
  0.112 + s (i * 0.1) * 0.02 + r * 0.008

/-- The `timeSeriesData` array: 30 points, point `i` dated
`dayjs().subtract(29 - i, 'day')` (86400000 ms per day), channels per the
formulas above; `rand i c` is the `Math.random()` draw used for channel `c`
of point `i` (five draws per point, in source order). -/
def timeSeriesData (now : ℤ) (s : ℚ → ℚ) (rand : ℕ → Fin 5 → ℚ) : List TSPoint :=
  (List.range 30).map fun (i : ℕ) =>
    { date := now - (29 - (i : ℤ)) * 86400000
      overall_bias := overallChannel s (rand i 0) i
      gender_bias := genderChannel s (rand i 1) i
      age_bias := ageChannel s (rand i 2) i
      ethnic_bias := ethnicChannel s (rand i 3) i
      socioeconomic_bias := socioChannel s (rand i 4) i }

/-- The bundle `generateDummyData` returns. -/
structure Bundle where
  biasMetrics : List BiasMetric
  alerts : List AlertItem
  demographicData : DemographicData
  timeSeriesData : List TSPoint
deriving DecidableEq, Repr

/-- `generateDummyData`, with the ambient clock, sine and random draws as
explicit parameters. -/
def generateDummyData (now : ℤ) (s : ℚ → ℚ) (rand : ℕ → Fin 5 → ℚ) : Bundle :=
  { biasMetrics := biasMetrics
    alerts := alerts now
    demographicData := demographicData
    timeSeriesData := timeSeriesData now s rand }

/-- The badge kind `getBiasStatus` returns ('success' | 'warning' | 'error'). -/
inductive BadgeKind where
  | success
  | warning
  | error
deriving DecidableEq, Repr

/-- The record `getBiasStatus` returns. -/
structure StatusView where
  badge : BadgeKind
  text : String
  color : String
deriving DecidableEq, Repr

/-- The `getBiasStatus` helper of the dashboard. -/
def getBiasStatus (score : ℚ) : StatusView :=
  if score < 0.05 then { badge := .success, text := "Excellent", color := "#52c41a" }
  else if score < 0.1 then { badge := .warning, text := "Moderate", color := "#faad14" }
  else { badge := .error, text := "High Risk", color := "#f5222d" }

/-- The badge the results table renders for a stored metric status
(`status === 'excellent' ? 'success' : status === 'moderate' ? 'warning' : 'error'`). -/
def statusBadge : MetricStatus → BadgeKind
  | .excellent => .success
  | .moderate => .warning
  | .highRisk => .error

/-- Modelled from the spec: the fixed threshold function in metric-status
vocabulary, `value < 0.05 → excellent; 0.05 ≤ value < 0.1 → moderate;
value ≥ 0.1 → high-risk`. Compared against the source `getBiasStatus` and
the stored `status` fields. -/
def specStatusOfValue (v : ℚ) : MetricStatus :=
  if v < 0.05 then .excellent
  else if v < 0.1 then .moderate
  else .highRisk

/-- The clamp the `setInterval` callback applies to the new score:
`Math.max(0, Math.min(0.3, newScore))`. -/
def clampScore (x : ℚ) : ℚ :=
  max 0 (min 0.3 x)

/-- The point the `setInterval` callback appends: `date: new Date()` and the
per-channel jitters of the source; `r c` is the `Math.random()` draw for
channel `c` of the tick (`r 0` is the draw of `newScore`, shared with
`overall_bias`). -/
def tickPoint (r : Fin 5 → ℚ) (now : ℤ) : TSPoint :=
  { date := now
    overall_bias := 0.092 + (r 0 - 0.5) * 0.02
    gender_bias := 0.087 + (r 1 - 0.5) * 0.01
    age_bias := 0.156 + (r 2 - 0.5) * 0.015
    ethnic_bias := 0.043 + (r 3 - 0.5) * 0.005
    socioeconomic_bias := 0.112 + (r 4 - 0.5) * 0.02 }

/-- The window update of the `setInterval` callback:
`[...prev.slice(1), newPoint]`. -/
def tickWindow (r : Fin 5 → ℚ) (now : ℤ) (w : List TSPoint) : List TSPoint :=
  w.drop 1 ++ [tickPoint r now]

/-- `n` consecutive timer firings; `stream k` is the draws and clock value of
the `k`-th firing. -/
def runTicks (stream : ℕ → (Fin 5 → ℚ) × ℤ) : ℕ → List TSPoint → List TSPoint
  | 0, w => w
  | n + 1, w => runTicks stream n (tickWindow (stream n).1 (stream n).2 w)

/-- The dashboard state the updater can reach: the real-time flag, the two
pieces of state the `setInterval` callback writes (`currentBiasScore`,
`realtimeData`), and the memoised generation-time data (`biasMetrics`,
`alerts`, `demographicData`, recomputed never — `useMemo` with `[]`). -/
structure DashState where
  realTimeEnabled : Bool
  currentBiasScore : ℚ
  realtimeData : List TSPoint
  biasMetrics : List BiasMetric
  alerts : List AlertItem
  demographicData : DemographicData
deriving DecidableEq, Repr

/-- The events that touch the updater's state: a timer firing (with its
random draws and clock value) and a toggle of the real-time switch. -/
inductive Event where
  | tick (r : Fin 5 → ℚ) (now : ℤ)
  | setEnabled (b : Bool)

/-- One event applied to the dashboard state. A `tick` while the flag is
false is a no-op: the `useEffect` cleared the interval, so the callback does
not run. While the flag is true the callback writes the clamped score and
the rolled window exactly as the source does. Toggling the switch writes
only the flag. -/
def applyEvent (e : Event) (s : DashState) : DashState :=
  match e with
  | .tick r now =>
      if s.realTimeEnabled then
        { s with
          currentBiasScore := clampScore (0.092 + (r 0 - 0.5) * 0.02)
          realtimeData := tickWindow r now s.realtimeData }
      else s
  | .setEnabled b => { s with realTimeEnabled := b }

/-- Whether an event is a timer firing. -/
def isTick : Event → Bool
  | .tick _ _ => true
  | .setEnabled _ => false

/-- A concrete paused dashboard state, for instantiating theorems. -/
def pausedState : DashState :=
  { realTimeEnabled := false
    currentBiasScore := 0.092
    realtimeData := timeSeriesData 0 (fun _ => 0) (fun _ _ => 0)
    biasMetrics := biasMetrics
    alerts := alerts 0
    demographicData := demographicData }

/-- A concrete running dashboard state, for instantiating theorems. -/
def enabledState : DashState :=
  { pausedState with realTimeEnabled := true }

/-- The `filters` state object of the dashboard. -/
structure Filters where
  protectedAttributes : List String
  outcomeVariable : String
  dateRange : ℤ × ℤ
  biasThreshold : ℚ
  minimumSampleSize : ℕ
deriving DecidableEq, Repr

/-- The initial `filters` value (`dayjs().subtract(30, 'days')` in ms). -/
def initialFilters (now : ℤ) : Filters :=
  { protectedAttributes := ["gender", "age"]
    outcomeVariable := "completion_rate"
    dateRange := (now - 30 * 86400000, now)
    biasThreshold := 0.1
    minimumSampleSize := 30 }

/-- The `RangePicker` `onChange` handler: the argument is `null` or an array
of possibly-null endpoints; the guard
`if (!dates || dates.length !== 2 || !dates[0] || !dates[1]) return;` keeps
the filters unchanged unless the selection is exactly two non-null
endpoints, in which case only `dateRange` is replaced. -/
def onDateRangeChange (dates : Option (List (Option ℤ))) (f : Filters) : Filters :=
  match dates with
  | none => f
  | some ds =>
      match ds with
      | [some d0, some d1] => { f with dateRange := (d0, d1) }
      | _ => f

/-- The formula shape the spec ascribes to every time-series channel:
some per-channel constants `base`, `freq`, `amp`, `noise` with
`value = base + sin(i * freq) * amp + draw * noise` at every index
`i < 30`, for any sine function and any draw. -/
def HasSinJitterShape (ch : (ℚ → ℚ) → ℚ → ℕ → ℚ) : Prop :=
  ∃ base freq amp noise : ℚ,
    ∀ (s : ℚ → ℚ) (r : ℚ) (i : ℕ), i < 30 →
      ch s r i = base + s (i * freq) * amp + r * noise

/-! ## Theorems -/

/-- Shared helper: the age channel does not fit the sinusoidal-jitter shape,
because with the sine slot forced to the zero function its value still
varies with the index. -/
lemma ageChannel_no_sin_shape : ¬ HasSinJitterShape ageChannel := by
  rintro ⟨b, f, a, n, h⟩
  have h0 := h (fun _ => 0) 0 0 (by norm_num)
  have h1 := h (fun _ => 0) 0 1 (by norm_num)
  simp [ageChannel] at h0 h1
  norm_num at h0 h1
  linarith

/-- Claim C1 (counterexample): the age channel of `generateDummyData` is not
of the claimed shape `base + sin(i * freq) * amp + draw * noise`: no choice
of constants reproduces `0.156 - i * 0.002 + draw * 0.01` at every index
below 30. -/
theorem age_channel_not_sin_jitter : ¬ HasSinJitterShape ageChannel :=
  ageChannel_no_sin_shape

/-- Claim C1 (amended): four of the five channels (overall, gender, ethnic —
the latter with zero amplitude — and socioeconomic) are of the shape
`base + sin(i * freq) * amp + draw * noise`; the age channel is instead an
affine ramp in the index: it starts at `0.156 + draw * 0.01` and decreases
by exactly `0.002` per index step. -/
theorem channels_shape_amended :
    HasSinJitterShape overallChannel
    ∧ HasSinJitterShape genderChannel
    ∧ HasSinJitterShape ethnicChannel
    ∧ HasSinJitterShape socioChannel
    ∧ (∀ (s : ℚ → ℚ) (r : ℚ), ageChannel s r 0 = 0.156 + r * 0.01)
    ∧ (∀ (s : ℚ → ℚ) (r : ℚ) (i : ℕ),
        ageChannel s r (i + 1) - ageChannel s r i = -0.002) := by
  refine ⟨⟨0.08, 0.2, 0.02, 0.01, fun s r i _ => rfl⟩,
          ⟨0.087, 0.15, 0.015, 0.008, fun s r i _ => rfl⟩,
          ⟨0.043, 0, 0, 0.005, fun s r i _ => by simp [ethnicChannel]⟩,
          ⟨0.112, 0.1, 0.02, 0.008, fun s r i _ => rfl⟩,
          fun s r => by simp [ageChannel],
          fun s r i => by simp [ageChannel]; ring⟩

/-- Claim C2: the badge the source helper `getBiasStatus` renders is, at
every score, the badge of the fixed threshold function
(`< 0.05 → excellent; 0.05 ≤ · < 0.1 → moderate; 0.1 ≤ · → high-risk`),
and every one of the four hardcoded metrics stores exactly the status the
threshold function assigns to its stored value. -/
theorem metric_status_matches_thresholds :
    (∀ v : ℚ, (getBiasStatus v).badge = statusBadge (specStatusOfValue v))
    ∧ (∀ v : ℚ, v < 0.05 → specStatusOfValue v = .excellent)
    ∧ (∀ v : ℚ, 0.05 ≤ v → v < 0.1 → specStatusOfValue v = .moderate)
    ∧ (∀ v : ℚ, 0.1 ≤ v → specStatusOfValue v = .highRisk)
    ∧ List.Forall (fun m => m.status = specStatusOfValue m.value) biasMetrics := by
  refine ⟨?_, ?_, ?_, ?_, ?_⟩
  · intro v
    unfold getBiasStatus specStatusOfValue
    split_ifs <;> rfl
  · intro v h
    simp [specStatusOfValue, if_pos h]
  · intro v h1 h2
    simp [specStatusOfValue, if_neg (not_lt.mpr h1), if_pos h2]
  · intro v h
    have h1 : ¬ v < 0.05 := not_lt.mpr (le_trans (by norm_num) h)
    have h2 : ¬ v < 0.1 := not_lt.mpr h
    simp [specStatusOfValue, if_neg h1, if_neg h2]
  · norm_num [biasMetrics, List.Forall, specStatusOfValue]

/-- Claim C9: the initial snapshot carries the seed literals exactly: metric
values `[0.087, 0.156, 0.043, 0.112]`, exactly three alerts, the hardcoded
demographic counts, and each demographic category totals 6100 (in
particular the gender counts sum to 2847 + 3156 + 97 = 6100). -/
theorem seed_literals (now : ℤ) (s : ℚ → ℚ) (rand : ℕ → Fin 5 → ℚ) :
    (generateDummyData now s rand).biasMetrics.map BiasMetric.value
        = [0.087, 0.156, 0.043, 0.112]
    ∧ (generateDummyData now s rand).alerts.length = 3
    ∧ (generateDummyData now s rand).demographicData = demographicData
    ∧ demographicData.gender.male + demographicData.gender.female
        + demographicData.gender.nonBinary = 6100
    ∧ demographicData.age.a18to25 + demographicData.age.a26to35
        + demographicData.age.a36to45 + demographicData.age.a46plus = 6100
    ∧ demographicData.ethnicity.white + demographicData.ethnicity.black
        + demographicData.ethnicity.hispanic + demographicData.ethnicity.asian
        + demographicData.ethnicity.other = 6100 := by
  refine ⟨rfl, rfl, rfl, rfl, rfl, rfl⟩

/-- Shared helper: the initial time series has exactly 30 points. -/
lemma timeSeriesData_length (now : ℤ) (s : ℚ → ℚ) (rand : ℕ → Fin 5 → ℚ) :
    (timeSeriesData now s rand).length = 30 := by
  simp [timeSeriesData]

/-- Shared helper: one tick maps a 30-point window to a 30-point window. -/
lemma tickWindow_length (r : Fin 5 → ℚ) (t : ℤ) (w : List TSPoint)
    (hw : w.length = 30) : (tickWindow r t w).length = 30 := by
  simp [tickWindow]
  omega

/-- Shared helper: any number of ticks preserves the 30-point window. -/
lemma runTicks_length (stream : ℕ → (Fin 5 → ℚ) × ℤ) (n : ℕ) (w : List TSPoint)
    (hw : w.length = 30) : (runTicks stream n w).length = 30 := by
  induction n generalizing w with
  | zero => simpa [runTicks] using hw
  | succ k ih =>
    simp only [runTicks]
    exact ih _ (tickWindow_length _ _ _ hw)

/-- Claim C3: starting from the initial 30-point series, after any `n ≥ 1`
ticks the window still has exactly 30 points; moreover each tick appends
exactly the one new point at the end and what precedes it is the old window
with its oldest point dropped. -/
theorem window_length_invariant (now : ℤ) (s : ℚ → ℚ) (rand : ℕ → Fin 5 → ℚ)
    (stream : ℕ → (Fin 5 → ℚ) × ℤ) (n : ℕ) (_hn : 1 ≤ n)
    (r : Fin 5 → ℚ) (t : ℤ) (w : List TSPoint) :
    (runTicks stream n (generateDummyData now s rand).timeSeriesData).length = 30
    ∧ (tickWindow r t w).getLast? = some (tickPoint r t)
    ∧ (tickWindow r t w).dropLast = w.drop 1 := by
  refine ⟨runTicks_length _ _ _ (timeSeriesData_length now s rand), ?_, ?_⟩
  · simp [tickWindow]
  · simp [tickWindow]

/-- Witness for C3 at a concrete input: one tick on the initial window. -/
theorem window_length_invariant_witness :
    (runTicks (fun _ => (fun _ => 0, 0)) 1
      (generateDummyData 0 (fun _ => 0) fun _ _ => 0).timeSeriesData).length = 30 :=
  (window_length_invariant 0 (fun _ => 0) (fun _ _ => 0) (fun _ => (fun _ => 0, 0)) 1
    (by norm_num) (fun _ => 0) 0 []).1

/-- Claim C4: a tick while running sets the score to the base `0.092` plus a
perturbation clamped to `[0, 0.3]`; the perturbation is symmetric of
half-range `0.01` for draws in `[0, 1]`; and the appended point carries the
current timestamp and the per-channel jittered values of the source. -/
theorem tick_transition_spec (s : DashState) (r : Fin 5 → ℚ) (now : ℤ)
    (h : s.realTimeEnabled = true) (h0 : 0 ≤ r 0) (h1 : r 0 ≤ 1) :
    (applyEvent (.tick r now) s).currentBiasScore
        = clampScore (0.092 + (r 0 - 0.5) * 0.02)
    ∧ 0 ≤ (applyEvent (.tick r now) s).currentBiasScore
    ∧ (applyEvent (.tick r now) s).currentBiasScore ≤ 0.3
    ∧ 0.092 - 0.01 ≤ 0.092 + (r 0 - 0.5) * 0.02
    ∧ 0.092 + (r 0 - 0.5) * 0.02 ≤ 0.092 + 0.01
    ∧ (applyEvent (.tick r now) s).realtimeData
        = s.realtimeData.drop 1 ++ [tickPoint r now]
    ∧ (tickPoint r now).date = now
    ∧ (tickPoint r now).overall_bias = 0.092 + (r 0 - 0.5) * 0.02
    ∧ (tickPoint r now).gender_bias = 0.087 + (r 1 - 0.5) * 0.01
    ∧ (tickPoint r now).age_bias = 0.156 + (r 2 - 0.5) * 0.015
    ∧ (tickPoint r now).ethnic_bias = 0.043 + (r 3 - 0.5) * 0.005
    ∧ (tickPoint r now).socioeconomic_bias = 0.112 + (r 4 - 0.5) * 0.02 := by
  refine ⟨by simp [applyEvent, h], ?_, ?_, by linarith, by linarith,
          by simp [applyEvent, h, tickWindow], rfl, rfl, rfl, rfl, rfl, rfl⟩
  · simp only [applyEvent, h, ite_true]
    exact le_max_left 0 _
  · simp only [applyEvent, h, ite_true]
    exact max_le (by norm_num) (min_le_left _ _)

/-- Witness for C4 at a concrete input: the middle draw on a running state. -/
theorem tick_transition_spec_witness :
    (applyEvent (.tick (fun _ => 0.5) 0) enabledState).currentBiasScore
      = clampScore (0.092 + ((fun _ : Fin 5 => (0.5 : ℚ)) 0 - 0.5) * 0.02) :=
  (tick_transition_spec enabledState (fun _ => 0.5) 0 rfl (by norm_num) (by norm_num)).1

/-- Claim C10: after a tick with its draw in `[0, 1]`, the newest point of
the window is the appended point, the stored score equals that point's
`overall_bias` (the clamp never bites: the unclamped value already lies in
`[0.082, 0.102] ⊆ [0, 0.3]`). -/
theorem score_matches_newest_point (s : DashState) (r : Fin 5 → ℚ) (now : ℤ)
    (h : s.realTimeEnabled = true) (h0 : 0 ≤ r 0) (h1 : r 0 ≤ 1) :
    (applyEvent (.tick r now) s).realtimeData.getLast? = some (tickPoint r now)
    ∧ (applyEvent (.tick r now) s).currentBiasScore = (tickPoint r now).overall_bias
    ∧ 0.082 ≤ (tickPoint r now).overall_bias
    ∧ (tickPoint r now).overall_bias ≤ 0.102 := by
  have hx1 : (0.092 : ℚ) + (r 0 - 0.5) * 0.02 ≤ 0.102 := by linarith
  have hx0 : (0.082 : ℚ) ≤ 0.092 + (r 0 - 0.5) * 0.02 := by linarith
  refine ⟨by simp [applyEvent, h, tickWindow], ?_, hx0, hx1⟩
  simp only [applyEvent, h, ite_true]
  show clampScore (0.092 + (r 0 - 0.5) * 0.02) = _
  unfold clampScore
  rw [min_eq_right (le_trans hx1 (by norm_num)),
      max_eq_right (le_trans (by norm_num) hx0)]
  rfl

/-- Witness for C10 at a concrete input: the middle draw on a running state. -/
theorem score_matches_newest_point_witness :
    (applyEvent (.tick (fun _ => (0.5 : ℚ)) 5) enabledState).realtimeData.getLast?
      = some (tickPoint (fun _ => (0.5 : ℚ)) 5) :=
  (score_matches_newest_point enabledState (fun _ => 0.5) 5 rfl
    (by norm_num) (by norm_num)).1

/-- Claim C6: while the flag is false, any sequence of timer firings leaves
the state exactly as it was (the interval is cleared, so no callback runs),
and flipping the flag back to true changes neither the score nor the window
(no buffered ticks are replayed on resume). -/
theorem paused_no_ticks_resume_no_burst (s : DashState)
    (h : s.realTimeEnabled = false) :
    (∀ evs : List Event, evs.all isTick = true →
        evs.foldl (fun st e => applyEvent e st) s = s)
    ∧ (applyEvent (.setEnabled true) s).currentBiasScore = s.currentBiasScore
    ∧ (applyEvent (.setEnabled true) s).realtimeData = s.realtimeData := by
  refine ⟨?_, rfl, rfl⟩
  intro evs
  induction evs with
  | nil => intro _; rfl
  | cons e t ih =>
    intro hall
    simp only [List.all_cons, Bool.and_eq_true] at hall
    obtain ⟨he, ht⟩ := hall
    have hstep : applyEvent e s = s := by
      cases e with
      | tick r now => simp [applyEvent, h]
      | setEnabled b => simp [isTick] at he
    simp only [List.foldl_cons]
    rw [hstep]
    exact ih ht

/-- Witness for C6 at a concrete input: one skipped firing on a paused state. -/
theorem paused_no_ticks_witness :
    [Event.tick (fun _ => 0) 0].foldl (fun st e => applyEvent e st) pausedState
      = pausedState :=
  (paused_no_ticks_resume_no_burst pausedState rfl).1 [Event.tick (fun _ => 0) 0] rfl

/-- Shared helper: no event changes the generation-time data. -/
lemma applyEvent_preserves_generated (e : Event) (s : DashState) :
    (applyEvent e s).biasMetrics = s.biasMetrics
    ∧ (applyEvent e s).alerts = s.alerts
    ∧ (applyEvent e s).demographicData = s.demographicData := by
  cases e with
  | tick r t => cases hb : s.realTimeEnabled <;> simp [applyEvent, hb]
  | setEnabled b => simp [applyEvent]

/-- Claim C7: a tick leaves the bias metrics, the alert list and the
demographic snapshot (and the flag itself) unchanged — it writes only the
score and the rolling window — and no event at all ever changes the alert
list after generation. -/
theorem tick_frame_condition (r : Fin 5 → ℚ) (now : ℤ) (s : DashState) (e : Event) :
    (applyEvent (.tick r now) s).biasMetrics = s.biasMetrics
    ∧ (applyEvent (.tick r now) s).alerts = s.alerts
    ∧ (applyEvent (.tick r now) s).demographicData = s.demographicData
    ∧ (applyEvent (.tick r now) s).realTimeEnabled = s.realTimeEnabled
    ∧ (applyEvent e s).alerts = s.alerts := by
  obtain ⟨h1, h2, h3⟩ := applyEvent_preserves_generated (.tick r now) s
  obtain ⟨_, h5, _⟩ := applyEvent_preserves_generated e s
  refine ⟨h1, h2, h3, ?_, h5⟩
  cases hb : s.realTimeEnabled <;> simp [applyEvent, hb]

/-- Claim C5 (counterexample): two calls of `generateDummyData` with
different random draws return different bundles — the time series carries
the draws, so the function is not a constant of no inputs. -/
theorem generateDummyData_depends_on_draws :
    generateDummyData 0 (fun _ => 0) (fun _ _ => 0)
      ≠ generateDummyData 0 (fun _ => 0) (fun _ _ => 1) := by
  intro h
  have h2 := congrArg (fun b => (b.timeSeriesData.map TSPoint.overall_bias)[0]?) h
  simp [generateDummyData, timeSeriesData, overallChannel] at h2
  norm_num at h2

/-- Claim C5 (amended): `generateDummyData` is a total function of the
ambient clock, sine and random draws; it never fails, and its metrics and
demographics components are equal across any two calls whatever the ambient
inputs, while its alerts depend only on the clock. -/
theorem generateDummyData_deterministic_components
    (n1 n2 : ℤ) (s1 s2 : ℚ → ℚ) (r1 r2 : ℕ → Fin 5 → ℚ) :
    (generateDummyData n1 s1 r1).biasMetrics = (generateDummyData n2 s2 r2).biasMetrics
    ∧ (generateDummyData n1 s1 r1).demographicData
        = (generateDummyData n2 s2 r2).demographicData
    ∧ (generateDummyData n1 s1 r1).alerts = (generateDummyData n1 s2 r2).alerts := by
  exact ⟨rfl, rfl, rfl⟩

/-- Claim C8: the date-range handler leaves the filters untouched on a null
selection, on a selection that is not two endpoints, and on a selection with
a missing endpoint; only a complete two-endpoint selection updates
`dateRange`, and it changes no other filter field. -/
theorem dateRange_guard :
    (∀ f : Filters, onDateRangeChange none f = f)
    ∧ (∀ (f : Filters) (ds : List (Option ℤ)), ds.length ≠ 2 →
        onDateRangeChange (some ds) f = f)
    ∧ (∀ (f : Filters) (ds : List (Option ℤ)),
        ds.getD 0 none = none ∨ ds.getD 1 none = none →
        onDateRangeChange (some ds) f = f)
    ∧ (∀ (f : Filters) (d0 d1 : ℤ),
        (onDateRangeChange (some [some d0, some d1]) f).dateRange = (d0, d1)
        ∧ (onDateRangeChange (some [some d0, some d1]) f).protectedAttributes
            = f.protectedAttributes
        ∧ (onDateRangeChange (some [some d0, some d1]) f).outcomeVariable
            = f.outcomeVariable
        ∧ (onDateRangeChange (some [some d0, some d1]) f).biasThreshold
            = f.biasThreshold
        ∧ (onDateRangeChange (some [some d0, some d1]) f).minimumSampleSize
            = f.minimumSampleSize) := by
  refine ⟨fun f => rfl, ?_, ?_, fun f d0 d1 => ⟨rfl, rfl, rfl, rfl, rfl⟩⟩
  · intro f ds h
    rcases ds with _ | ⟨a, _ | ⟨b, _ | ⟨c, t⟩⟩⟩
    · rfl
    · cases a <;> rfl
    · exact absurd rfl h
    · cases a <;> cases b <;> rfl
  · intro f ds h
    rcases ds with _ | ⟨a, _ | ⟨b, _ | ⟨c, t⟩⟩⟩
    · rfl
    · cases a <;> rfl
    · cases a with
      | none => rfl
      | some d0 =>
        cases b with
        | none => rfl
        | some d1 => simp at h
    · cases a <;> cases b <;> rfl

end BiasAudit
